import Mathlib

/-!
Verification model of the Reolink camera backend (src/app.py).

The backend has two components: a Session Authority that issues and validates
JWT session tokens for website users, and an Upstream Credential Manager
(class ReonlinkCloudAPI) that owns the vendor-cloud session and proxies
camera operations. Both are embedded shallowly below: pure Lean functions
over explicit state, with vendor HTTP responses supplied as inputs and the
HTTP requests a method emits collected into an explicit list. Time is a
natural number of seconds passed explicitly where the Python code reads the
clock.
-/

/-- JWT payload as built by generate_token: user_id, exp and iat claims
(times in seconds). -/
structure Payload where
  user_id : String
  exp : Nat
  iat : Nat
deriving DecidableEq, Repr

/-- Idealized JWT string: a well-formed token records the payload and the key
it was signed with (an ideal MAC — the signature verifies under a key exactly
when the token was produced with that key); every other string is a malformed
token. -/
inductive JWT where
  | signed (payload : Payload) (key : String)
  | malformed (raw : String)
deriving DecidableEq, Repr

/-- The PyJWT exceptions caught by verify_token. -/
inductive JwtError where
  | expiredSignature
  | invalidToken
deriving DecidableEq, Repr

/-- jwt.encode(payload, key, algorithm=HS256). -/
def jwtEncode (p : Payload) (key : String) : JWT := .signed p key

/-- jwt.decode(token, key, algorithms=[HS256]): fails on a malformed token or
a signature made with a different key, and raises ExpiredSignatureError when
the exp claim is not in the future. -/
def jwtDecode (t : JWT) (key : String) (now : Nat) : Except JwtError Payload :=
  match t with
  | .malformed _ => .error .invalidToken
  | .signed p k =>
      if k = key then
        if p.exp ≤ now then .error .expiredSignature else .ok p
      else .error .invalidToken

/-- The in-memory valid_tokens set, modelled as a list of token strings. -/
abbrev TokenRegistry := List JWT

/-- generate_token(user_id): builds the payload with exp = now + 24h and
iat = now, signs it with the secret, adds the token to valid_tokens and
returns it together with the updated registry. -/
def generate_token (secret : String) (valid_tokens : TokenRegistry) (now : Nat)
    (user_id : String) : JWT × TokenRegistry :=
  let payload : Payload := { user_id := user_id, exp := now + 24 * 3600, iat := now }
  let token := jwtEncode payload secret
  (token, token :: valid_tokens)

/-- verify_token(token): false when the token is not in valid_tokens, then
true exactly when jwt.decode succeeds; the two PyJWT exceptions are caught
and collapsed to false. -/
def verify_token (secret : String) (valid_tokens : TokenRegistry) (now : Nat)
    (token : JWT) : Bool :=
  if token ∈ valid_tokens then
    match jwtDecode token secret now with
    | .ok _ => true
    | .error _ => false
  else false

/-- The token's signature verifies under the given secret. -/
def sigVerifies (t : JWT) (secret : String) : Prop :=
  match t with
  | .signed _ k => k = secret
  | .malformed _ => False

/-- The token's embedded expiry lies strictly in the future. -/
def expiryInFuture (t : JWT) (now : Nat) : Prop :=
  match t with
  | .signed p _ => now < p.exp
  | .malformed _ => False

instance (t : JWT) (secret : String) : Decidable (sigVerifies t secret) := by
  unfold sigVerifies
  cases t with
  | signed p k => exact inferInstance
  | malformed raw => exact inferInstance

instance (t : JWT) (now : Nat) : Decidable (expiryInFuture t now) := by
  unfold expiryInFuture
  cases t with
  | signed p k => exact inferInstance
  | malformed raw => exact inferInstance

/-- Claim C1: verify_token returns true iff the token is in the registry, its
signature verifies under the configured secret, and its embedded expiry is in
the future; it is a total boolean function, so it never raises. -/
theorem C1_verify_token_iff (secret : String) (reg : TokenRegistry) (now : Nat)
    (t : JWT) :
    verify_token secret reg now t = true ↔
      t ∈ reg ∧ sigVerifies t secret ∧ expiryInFuture t now := by
  cases t with
  | malformed raw =>
      simp [verify_token, jwtDecode, sigVerifies, expiryInFuture]
  | signed p k =>
      by_cases hm : JWT.signed p k ∈ reg
      · by_cases hk : k = secret
        · by_cases he : p.exp ≤ now
          · simp [verify_token, jwtDecode, sigVerifies, expiryInFuture, hm, hk, he]
          · simp [verify_token, jwtDecode, sigVerifies, expiryInFuture, hm, hk, he]
            omega
        · simp [verify_token, jwtDecode, sigVerifies, expiryInFuture, hm, hk]
      · simp [verify_token, sigVerifies, expiryInFuture, hm]

/-- Claim C2: generate_token issues a token signed with the secret encoding
user_id, iat = issue time and exp = issue time + 24h, adds exactly that token
to the registry, and verify_token accepts it at every instant strictly before
24 hours after issuance. -/
theorem C2_issue_then_validate (secret user_id : String) (reg : TokenRegistry)
    (t0 t : Nat) (h1 : t0 ≤ t) (h2 : t < t0 + 24 * 3600) :
    (generate_token secret reg t0 user_id).1 =
      jwtEncode { user_id := user_id, exp := t0 + 24 * 3600, iat := t0 } secret ∧
    (generate_token secret reg t0 user_id).2 =
      (generate_token secret reg t0 user_id).1 :: reg ∧
    verify_token secret (generate_token secret reg t0 user_id).2 t
      (generate_token secret reg t0 user_id).1 = true := by
  refine ⟨rfl, rfl, ?_⟩
  simp [generate_token, verify_token, jwtEncode, jwtDecode]
  rw [if_neg (by omega)]

/-- Witness for C2 at concrete inputs: issue at time 100, validate at
time 5000. -/
theorem C2_issue_then_validate_witness :
    verify_token "s" (generate_token "s" [] 100 "alice").2 5000
      (generate_token "s" [] 100 "alice").1 = true :=
  (C2_issue_then_validate "s" "alice" [] 100 5000 (by decide) (by decide)).2.2

/-! ## Upstream Credential Manager (class ReonlinkCloudAPI) -/

/-- The mutable fields of a ReonlinkCloudAPI instance. -/
structure Session where
  email : String
  password : String
  access_token : Option String
  refresh_token : Option String
  token_expiration : Option Nat
deriving DecidableEq, Repr

/-- The data object of a successful vendor login response. -/
structure LoginData where
  access_token : String
  refresh_token : String
deriving DecidableEq, Repr

/-- Body of a vendor login response: code, optional msg, data. -/
structure LoginBody where
  code : Int
  msg : Option String
  data : LoginData
deriving DecidableEq, Repr

/-- Outcome of an HTTP call as seen through requests + raise_for_status: a
requests.exceptions.RequestException (timeout, connection failure, non-2xx)
carrying its message, or a decoded 2xx JSON body. -/
inductive HttpResult (α : Type) where
  | netError (msg : String)
  | ok (body : α)
deriving DecidableEq, Repr

/-- An outgoing HTTP request of the manager, with the Authorization header
value recorded for camera calls and the ptz payload recorded as its single
key/value pair. -/
inductive Request where
  | login (email password : String)
  | getStatus (auth uid : String)
  | ptz (auth uid direction : String) (value : Int)
  | recallPreset (auth uid : String) (preset_id : Int)
  | getPresets (auth uid : String)
deriving DecidableEq, Repr

/-- The f-string Bearer self.access_token: Python renders None as the
four-character string None. -/
def authHeader (tok : Option String) : String :=
  "Bearer " ++ (match tok with | none => "None" | some s => s)

/-- Python truthiness test `not self.access_token`: true when the token is
missing or the empty string. -/
def tokenFalsy (tok : Option String) : Bool :=
  match tok with
  | none => true
  | some s => s == ""

/-- ReonlinkCloudAPI.authenticate: POSTs the configured credentials to the
vendor login endpoint; on code 0 stores access_token, refresh_token and an
expiry of now + 23 hours and returns true; on a vendor-reported failure or a
network error it returns false without touching the session fields. -/
def Session.authenticate (s : Session) (resp : HttpResult LoginBody) (now : Nat) :
    Bool × Session × List Request :=
  let reqs := [Request.login s.email s.password]
  match resp with
  | .netError _ => (false, s, reqs)
  | .ok body =>
      if body.code = 0 then
        (true,
         { s with
             access_token := some body.data.access_token,
             refresh_token := some body.data.refresh_token,
             token_expiration := some (now + 23 * 3600) },
         reqs)
      else (false, s, reqs)

/-- ReonlinkCloudAPI constructor: records the credentials with empty session
fields and immediately calls authenticate. -/
def Session.construct (email password : String) (resp : HttpResult LoginBody)
    (now : Nat) : Session × List Request :=
  let s0 : Session :=
    { email := email, password := password, access_token := none,
      refresh_token := none, token_expiration := none }
  let r := Session.authenticate s0 resp now
  (r.2.1, r.2.2)

/-- The `if not self.access_token: self.authenticate()` prelude shared by all
four camera operations. -/
def Session.ensureAuth (s : Session) (loginResp : HttpResult LoginBody)
    (now : Nat) : Session × List Request :=
  if tokenFalsy s.access_token then
    let r := Session.authenticate s loginResp now
    (r.2.1, r.2.2)
  else (s, [])

/-- The data object of a vendor camera status response; the Python code reads
its fields with dict.get, so each may be absent. -/
structure StatusData where
  status : Option Int
  name : Option String
  uid : Option String
deriving DecidableEq, Repr

/-- Body of a vendor camera status response. -/
structure StatusBody where
  code : Int
  msg : Option String
  data : StatusData
deriving DecidableEq, Repr

/-- Return value of get_camera_status: the mapped status record or an
error dictionary. -/
inductive CameraStatusResult where
  | ok (status : String) (name uid : Option String) (pan tilt zoom : Int)
  | err (msg : Option String)
deriving DecidableEq, Repr

/-- ReonlinkCloudAPI.get_camera_status. -/
def Session.get_camera_status (s : Session) (camera_uid : String)
    (loginResp : HttpResult LoginBody) (resp : HttpResult StatusBody)
    (now : Nat) : CameraStatusResult × Session × List Request :=
  let e := Session.ensureAuth s loginResp now
  let s1 := e.1
  let reqs := e.2 ++ [Request.getStatus (authHeader s1.access_token) camera_uid]
  match resp with
  | .netError m => (.err (some m), s1, reqs)
  | .ok body =>
      if body.code = 0 then
        (.ok (if body.data.status == some 1 then "Online" else "Offline")
          body.data.name body.data.uid 0 0 1, s1, reqs)
      else (.err body.msg, s1, reqs)

/-- Body of a vendor response carrying only code and optional msg (ptz and
preset-recall endpoints). -/
structure CodeMsgBody where
  code : Int
  msg : Option String
deriving DecidableEq, Repr

/-- Return value of ptz_control and recall_preset. -/
inductive PTZResult where
  | success (message : String)
  | failure (error : Option String)
deriving DecidableEq, Repr

/-- ReonlinkCloudAPI.ptz_control: POSTs the single-key payload
direction: value. -/
def Session.ptz_control (s : Session) (camera_uid direction : String)
    (value : Int) (loginResp : HttpResult LoginBody)
    (resp : HttpResult CodeMsgBody) (now : Nat) :
    PTZResult × Session × List Request :=
  let e := Session.ensureAuth s loginResp now
  let s1 := e.1
  let reqs := e.2 ++ [Request.ptz (authHeader s1.access_token) camera_uid direction value]
  match resp with
  | .netError m => (.failure (some m), s1, reqs)
  | .ok body =>
      if body.code = 0 then
        (.success (direction ++ " command sent"), s1, reqs)
      else (.failure body.msg, s1, reqs)

/-- ReonlinkCloudAPI.recall_preset. -/
def Session.recall_preset (s : Session) (camera_uid : String) (preset_id : Int)
    (loginResp : HttpResult LoginBody) (resp : HttpResult CodeMsgBody)
    (now : Nat) : PTZResult × Session × List Request :=
  let e := Session.ensureAuth s loginResp now
  let s1 := e.1
  let reqs := e.2 ++ [Request.recallPreset (authHeader s1.access_token) camera_uid preset_id]
  match resp with
  | .netError m => (.failure (some m), s1, reqs)
  | .ok body =>
      if body.code = 0 then
        (.success "Preset recalled", s1, reqs)
      else (.failure body.msg, s1, reqs)

/-- The data object of a vendor presets response; the presets key is read
with dict.get and defaulted to the empty list. -/
structure PresetsData where
  presets : Option (List String)
deriving DecidableEq, Repr

/-- Body of a vendor presets response. -/
structure PresetsBody where
  code : Int
  msg : Option String
  data : PresetsData
deriving DecidableEq, Repr

/-- ReonlinkCloudAPI.get_presets: the preset list on code 0, the empty list
on every failure. -/
def Session.get_presets (s : Session) (camera_uid : String)
    (loginResp : HttpResult LoginBody) (resp : HttpResult PresetsBody)
    (now : Nat) : List String × Session × List Request :=
  let e := Session.ensureAuth s loginResp now
  let s1 := e.1
  let reqs := e.2 ++ [Request.getPresets (authHeader s1.access_token) camera_uid]
  match resp with
  | .netError _ => ([], s1, reqs)
  | .ok body =>
      if body.code = 0 then (body.data.presets.getD [], s1, reqs)
      else ([], s1, reqs)

/-- A login call that fails: a network-layer error or a vendor body whose
code is nonzero. -/
def loginFails (r : HttpResult LoginBody) : Prop :=
  match r with
  | .netError _ => True
  | .ok body => body.code ≠ 0

/-- True when the request list contains a vendor login (authentication) call. -/
def emitsLogin (reqs : List Request) : Bool :=
  reqs.any fun r =>
    match r with
    | .login _ _ => true
    | _ => false

theorem authenticate_fail_state (s : Session) (r : HttpResult LoginBody)
    (now : Nat) (h : loginFails r) : (Session.authenticate s r now).2.1 = s := by
  cases r with
  | netError m => rfl
  | ok body =>
      unfold loginFails at h
      simp [Session.authenticate, h]

theorem authenticate_reqs (s : Session) (r : HttpResult LoginBody) (now : Nat) :
    (Session.authenticate s r now).2.2 = [Request.login s.email s.password] := by
  cases r with
  | netError m => rfl
  | ok body =>
      unfold Session.authenticate
      by_cases h : body.code = 0 <;> simp [h]

/-- Claim C3: authenticate returns true exactly when the vendor login call
succeeds with code 0, in which case it stores the response tokens and an
expiry of now + 23 hours; on any vendor-reported failure or network error it
returns false and leaves access_token, refresh_token and token_expiration
exactly as they were. -/
theorem C3_authenticate (s : Session) (resp : HttpResult LoginBody) (now : Nat) :
    ((Session.authenticate s resp now).1 = true ↔
      ∃ body, resp = .ok body ∧ body.code = 0) ∧
    (∀ body, resp = .ok body → body.code = 0 →
      (Session.authenticate s resp now).2.1 =
        { s with
            access_token := some body.data.access_token,
            refresh_token := some body.data.refresh_token,
            token_expiration := some (now + 23 * 3600) }) ∧
    ((Session.authenticate s resp now).1 = false →
      (Session.authenticate s resp now).2.1 = s) := by
  cases resp with
  | netError m => simp [Session.authenticate]
  | ok body =>
      by_cases h : body.code = 0
      · simp [Session.authenticate, h]
      · simp [Session.authenticate, h]

/-- Witness for C3 at concrete inputs: a code-0 login body is accepted and a
network error leaves the session unchanged. -/
theorem C3_authenticate_witness :
    (Session.authenticate
        { email := "e", password := "p", access_token := none,
          refresh_token := none, token_expiration := none }
        (.ok { code := 0, msg := none, data := { access_token := "A", refresh_token := "R" } })
        7).2.1 =
      { email := "e", password := "p", access_token := some "A",
        refresh_token := some "R", token_expiration := some (7 + 23 * 3600) } :=
  (C3_authenticate
      { email := "e", password := "p", access_token := none,
        refresh_token := none, token_expiration := none }
      (.ok { code := 0, msg := none, data := { access_token := "A", refresh_token := "R" } })
      7).2.1
    { code := 0, msg := none, data := { access_token := "A", refresh_token := "R" } }
    rfl rfl

/-- Counterexample to claim C4: constructing the manager already emits a
vendor login (authentication) call, before any camera operation is invoked,
so authentication is not performed lazily on first use only. -/
theorem C4_counterexample :
    (Session.construct "e" "p" (.netError "down") 0).2 = [Request.login "e" "p"] ∧
    emitsLogin (Session.construct "e" "p" (.netError "down") 0).2 = true := by
  constructor <;> rfl

/-- Claim C4 as amended: the constructor authenticates eagerly; after
construction, a camera operation triggers a vendor authentication call
exactly when access_token is missing (or empty, by Python truthiness), and
this presence check never consults the stored expiry — the session below is
arbitrary, so the emission condition is independent of token_expiration. -/
theorem ensureAuth_reqs (s : Session) (lr : HttpResult LoginBody) (now : Nat) :
    (Session.ensureAuth s lr now).2 =
      if tokenFalsy s.access_token then [Request.login s.email s.password]
      else [] := by
  unfold Session.ensureAuth
  cases hf : tokenFalsy s.access_token <;> simp [hf, authenticate_reqs]

theorem ensureAuth_fail (s : Session) (lr : HttpResult LoginBody) (now : Nat)
    (h : tokenFalsy s.access_token = true) (hf : loginFails lr) :
    Session.ensureAuth s lr now = (s, [Request.login s.email s.password]) := by
  unfold Session.ensureAuth
  rw [h]
  simp [authenticate_fail_state s lr now hf, authenticate_reqs]

theorem get_camera_status_split (s : Session) (uid : String)
    (lr : HttpResult LoginBody) (sr : HttpResult StatusBody) (now : Nat) :
    (Session.get_camera_status s uid lr sr now).2.1 =
      (Session.ensureAuth s lr now).1 ∧
    (Session.get_camera_status s uid lr sr now).2.2 =
      (Session.ensureAuth s lr now).2 ++
        [Request.getStatus
          (authHeader (Session.ensureAuth s lr now).1.access_token) uid] := by
  unfold Session.get_camera_status
  cases sr with
  | netError m => exact ⟨rfl, rfl⟩
  | ok body => by_cases hb : body.code = 0 <;> simp [hb]

theorem ptz_control_split (s : Session) (uid d : String) (v : Int)
    (lr : HttpResult LoginBody) (cr : HttpResult CodeMsgBody) (now : Nat) :
    (Session.ptz_control s uid d v lr cr now).2.1 =
      (Session.ensureAuth s lr now).1 ∧
    (Session.ptz_control s uid d v lr cr now).2.2 =
      (Session.ensureAuth s lr now).2 ++
        [Request.ptz
          (authHeader (Session.ensureAuth s lr now).1.access_token) uid d v] := by
  unfold Session.ptz_control
  cases cr with
  | netError m => exact ⟨rfl, rfl⟩
  | ok body => by_cases hb : body.code = 0 <;> simp [hb]

theorem recall_preset_split (s : Session) (uid : String) (pid : Int)
    (lr : HttpResult LoginBody) (cr : HttpResult CodeMsgBody) (now : Nat) :
    (Session.recall_preset s uid pid lr cr now).2.1 =
      (Session.ensureAuth s lr now).1 ∧
    (Session.recall_preset s uid pid lr cr now).2.2 =
      (Session.ensureAuth s lr now).2 ++
        [Request.recallPreset
          (authHeader (Session.ensureAuth s lr now).1.access_token) uid pid] := by
  unfold Session.recall_preset
  cases cr with
  | netError m => exact ⟨rfl, rfl⟩
  | ok body => by_cases hb : body.code = 0 <;> simp [hb]

theorem get_presets_split (s : Session) (uid : String)
    (lr : HttpResult LoginBody) (pr : HttpResult PresetsBody) (now : Nat) :
    (Session.get_presets s uid lr pr now).2.1 =
      (Session.ensureAuth s lr now).1 ∧
    (Session.get_presets s uid lr pr now).2.2 =
      (Session.ensureAuth s lr now).2 ++
        [Request.getPresets
          (authHeader (Session.ensureAuth s lr now).1.access_token) uid] := by
  unfold Session.get_presets
  cases pr with
  | netError m => exact ⟨rfl, rfl⟩
  | ok body => by_cases hb : body.code = 0 <;> simp [hb]

theorem emitsLogin_append (a b : List Request) :
    emitsLogin (a ++ b) = (emitsLogin a || emitsLogin b) := by
  unfold emitsLogin
  exact List.any_append

/-- Claim C4 as amended: the constructor authenticates eagerly; after
construction, a camera operation triggers a vendor authentication call
exactly when access_token is missing (or empty, by Python truthiness), and
this presence check never consults the stored expiry — the session below is
arbitrary, so the emission condition is independent of token_expiration. -/
theorem C4_amended_lazy_reauth (email password uid d : String) (v pid : Int)
    (s : Session) (lr : HttpResult LoginBody) (sr : HttpResult StatusBody)
    (cr : HttpResult CodeMsgBody) (pr : HttpResult PresetsBody) (now : Nat) :
    emitsLogin (Session.construct email password lr now).2 = true ∧
    emitsLogin (Session.get_camera_status s uid lr sr now).2.2 =
      tokenFalsy s.access_token ∧
    emitsLogin (Session.ptz_control s uid d v lr cr now).2.2 =
      tokenFalsy s.access_token ∧
    emitsLogin (Session.recall_preset s uid pid lr cr now).2.2 =
      tokenFalsy s.access_token ∧
    emitsLogin (Session.get_presets s uid lr pr now).2.2 =
      tokenFalsy s.access_token := by
  refine ⟨?_, ?_, ?_, ?_, ?_⟩
  · unfold Session.construct
    rw [authenticate_reqs]
    rfl
  · rw [(get_camera_status_split s uid lr sr now).2, emitsLogin_append,
      ensureAuth_reqs]
    cases hf : tokenFalsy s.access_token <;> simp [emitsLogin]
  · rw [(ptz_control_split s uid d v lr cr now).2, emitsLogin_append,
      ensureAuth_reqs]
    cases hf : tokenFalsy s.access_token <;> simp [emitsLogin]
  · rw [(recall_preset_split s uid pid lr cr now).2, emitsLogin_append,
      ensureAuth_reqs]
    cases hf : tokenFalsy s.access_token <;> simp [emitsLogin]
  · rw [(get_presets_split s uid lr pr now).2, emitsLogin_append,
      ensureAuth_reqs]
    cases hf : tokenFalsy s.access_token <;> simp [emitsLogin]

/-- Claim C6: on a code-0 vendor body get_camera_status maps status 1 to
Online and anything else to Offline, copies name and uid from the response,
and always reports the fixed placeholders pan 0, tilt 0, zoom 1; a nonzero
vendor code or a network error yields an error value. -/
theorem C6_get_camera_status (s : Session) (uid : String)
    (lr : HttpResult LoginBody) (body : StatusBody) (m : String) (now : Nat) :
    (body.code = 0 → body.data.status = some 1 →
      (Session.get_camera_status s uid lr (.ok body) now).1 =
        .ok "Online" body.data.name body.data.uid 0 0 1) ∧
    (body.code = 0 → body.data.status ≠ some 1 →
      (Session.get_camera_status s uid lr (.ok body) now).1 =
        .ok "Offline" body.data.name body.data.uid 0 0 1) ∧
    (body.code ≠ 0 →
      (Session.get_camera_status s uid lr (.ok body) now).1 = .err body.msg) ∧
    (Session.get_camera_status s uid lr (.netError m) now).1 = .err (some m) := by
  refine ⟨?_, ?_, ?_, rfl⟩
  · intro hc hs
    simp [Session.get_camera_status, hc, hs]
  · intro hc hs
    simp [Session.get_camera_status, hc, hs]
  · intro hc
    simp [Session.get_camera_status, hc]

/-- Witness for C6 at the spec scenario: code 0, status 1, name Cam1,
uid U1 maps to Online with placeholder PTZ fields. -/
theorem C6_get_camera_status_witness :
    (Session.get_camera_status
        { email := "e", password := "p", access_token := some "A",
          refresh_token := none, token_expiration := none }
        "U1" (.netError "x")
        (.ok { code := 0, msg := none,
               data := { status := some 1, name := some "Cam1", uid := some "U1" } })
        0).1 =
      .ok "Online" (some "Cam1") (some "U1") 0 0 1 :=
  (C6_get_camera_status
      { email := "e", password := "p", access_token := some "A",
        refresh_token := none, token_expiration := none }
      "U1" (.netError "x")
      { code := 0, msg := none,
        data := { status := some 1, name := some "Cam1", uid := some "U1" } }
      "x" 0).1 rfl rfl

/-- Claim C7: get_presets returns the vendor's preset list on code 0 and the
empty list in every failure case (nonzero vendor code, timeout, connection
failure or non-2xx response, the latter three being RequestException); it is
total, so it never raises and never returns an error object. -/
theorem C7_get_presets (s : Session) (uid : String) (lr : HttpResult LoginBody)
    (body : PresetsBody) (ps : List String) (m : String) (now : Nat) :
    (body.code = 0 → body.data.presets = some ps →
      (Session.get_presets s uid lr (.ok body) now).1 = ps) ∧
    (body.code ≠ 0 → (Session.get_presets s uid lr (.ok body) now).1 = []) ∧
    (Session.get_presets s uid lr (.netError m) now).1 = [] := by
  refine ⟨?_, ?_, rfl⟩
  · intro hc hp
    simp [Session.get_presets, hc, hp]
  · intro hc
    simp [Session.get_presets, hc]

/-- Witness for C7 at the spec scenario: a timeout on the presets call
yields the empty list, and a code-0 body yields its preset list. -/
theorem C7_get_presets_witness :
    (Session.get_presets
        { email := "e", password := "p", access_token := some "A",
          refresh_token := none, token_expiration := none }
        "U1" (.netError "x")
        (.ok { code := 0, msg := none, data := { presets := some ["p1", "p2"] } })
        0).1 = ["p1", "p2"] :=
  (C7_get_presets
      { email := "e", password := "p", access_token := some "A",
        refresh_token := none, token_expiration := none }
      "U1" (.netError "x")
      { code := 0, msg := none, data := { presets := some ["p1", "p2"] } }
      ["p1", "p2"] "x" 0).1 rfl rfl

/-- Claim C8: ptz_control emits a POST whose body is the single-key payload
pairing the given direction with the given value, succeeds exactly when the
vendor body has code 0, maps a nonzero code to a failure carrying the vendor
msg, and maps a network error to a failure carrying its message. -/
theorem C8_ptz_control (s : Session) (uid d : String) (v : Int)
    (lr : HttpResult LoginBody) (resp : HttpResult CodeMsgBody)
    (body : CodeMsgBody) (m : String) (now : Nat) :
    (∃ hdr, Request.ptz hdr uid d v ∈ (Session.ptz_control s uid d v lr resp now).2.2) ∧
    ((∃ msg, (Session.ptz_control s uid d v lr resp now).1 = .success msg) ↔
      ∃ b, resp = .ok b ∧ b.code = 0) ∧
    (body.code ≠ 0 →
      (Session.ptz_control s uid d v lr (.ok body) now).1 = .failure body.msg) ∧
    (Session.ptz_control s uid d v lr (.netError m) now).1 = .failure (some m) := by
  refine ⟨?_, ?_, ?_, rfl⟩
  · refine ⟨authHeader (Session.ensureAuth s lr now).1.access_token, ?_⟩
    rw [(ptz_control_split s uid d v lr resp now).2]
    simp
  · cases resp with
    | netError m2 => simp [Session.ptz_control]
    | ok b =>
        by_cases hb : b.code = 0
        · simp [Session.ptz_control, hb]
        · simp [Session.ptz_control, hb]
  · intro hc
    simp [Session.ptz_control, hc]

/-- Witness for C8 at the spec scenario: vendor body code 1 with msg bad
yields a failure carrying bad. -/
theorem C8_ptz_control_witness :
    (Session.ptz_control
        { email := "e", password := "p", access_token := some "A",
          refresh_token := none, token_expiration := none }
        "U1" "pan" 10 (.netError "x")
        (.ok { code := 1, msg := some "bad" }) 0).1 = .failure (some "bad") :=
  (C8_ptz_control
      { email := "e", password := "p", access_token := some "A",
        refresh_token := none, token_expiration := none }
      "U1" "pan" 10 (.netError "x") (.ok { code := 1, msg := some "bad" })
      { code := 1, msg := some "bad" } "x" 0).2.2.1 (by decide)

theorem authHeader_none : authHeader none = "Bearer None" := rfl

/-- Claim C9: when access_token is None and the lazy authenticate call fails
(leaving it None), every camera operation still issues its vendor HTTP
request, with the Authorization header equal to the literal string
Bearer None. -/
theorem C9_bearer_none (s : Session) (uid d : String) (v pid : Int)
    (lr : HttpResult LoginBody) (sr : HttpResult StatusBody)
    (cr : HttpResult CodeMsgBody) (pr : HttpResult PresetsBody) (now : Nat)
    (hA : s.access_token = none) (hF : loginFails lr) :
    (Session.get_camera_status s uid lr sr now).2.2 =
      [Request.login s.email s.password, Request.getStatus "Bearer None" uid] ∧
    (Session.ptz_control s uid d v lr cr now).2.2 =
      [Request.login s.email s.password, Request.ptz "Bearer None" uid d v] ∧
    (Session.recall_preset s uid pid lr cr now).2.2 =
      [Request.login s.email s.password,
        Request.recallPreset "Bearer None" uid pid] ∧
    (Session.get_presets s uid lr pr now).2.2 =
      [Request.login s.email s.password, Request.getPresets "Bearer None" uid] := by
  have hfalsy : tokenFalsy s.access_token = true := by
    rw [hA]
    rfl
  have hens : Session.ensureAuth s lr now = (s, [Request.login s.email s.password]) :=
    ensureAuth_fail s lr now hfalsy hF
  refine ⟨?_, ?_, ?_, ?_⟩
  · rw [(get_camera_status_split s uid lr sr now).2, hens]
    simp [hA, authHeader_none]
  · rw [(ptz_control_split s uid d v lr cr now).2, hens]
    simp [hA, authHeader_none]
  · rw [(recall_preset_split s uid pid lr cr now).2, hens]
    simp [hA, authHeader_none]
  · rw [(get_presets_split s uid lr pr now).2, hens]
    simp [hA, authHeader_none]

/-- Witness for C9: with no access token and the vendor login down, the
status operation still sends its request with header Bearer None. -/
theorem C9_bearer_none_witness :
    (Session.get_camera_status
        { email := "e", password := "p", access_token := none,
          refresh_token := none, token_expiration := none }
        "U1" (.netError "down") (.netError "down2") 0).2.2 =
      [Request.login "e" "p", Request.getStatus "Bearer None" "U1"] :=
  (C9_bearer_none
      { email := "e", password := "p", access_token := none,
        refresh_token := none, token_expiration := none }
      "U1" "pan" 10 1 (.netError "down") (.netError "down2")
      (.netError "c") (.netError "q") 0 rfl trivial).1

/-! ## Authentication gate (token_required decorator) -/

/-- Model of the Python str.split with a single-character separator, as in
token.split applied to one space: empty segments are kept, and splitting the
empty string yields one empty segment. -/
def pySplit (sep : Char) : List Char → List (List Char)
  | [] => [[]]
  | c :: cs =>
      if c = sep then [] :: pySplit sep cs
      else
        match pySplit sep cs with
        | [] => [[c]]
        | g :: gs => (c :: g) :: gs

/-- Outcome of the decorated endpoint: a 401 rejection with its message, or
the wrapped camera operation invoked after the gate extracted this token. -/
inductive GateResult where
  | rejected (message : String)
  | passed (token : List Char)
deriving DecidableEq, Repr

/-- token_required decorator body, parameterized by the verifier it calls on
the extracted token (verify_token in the source). The header argument is the
Authorization header: absent, or present with the given character list as
value. Python truthiness makes an empty header value fall into the
no-token-provided branch; indexing segment 1 of the split raises IndexError,
caught as invalid-token-format, exactly when the split has fewer than two
segments. -/
def token_required (verify : List Char → Bool) (header : Option (List Char)) :
    GateResult :=
  match header with
  | none => .rejected "No token provided"
  | some t =>
      if t = [] then .rejected "No token provided"
      else
        match (pySplit ' ' t)[1]? with
        | none => .rejected "Invalid token format"
        | some tok =>
            if verify tok then .passed tok else .rejected "Invalid token"

/-- A verifier that rejects every token. -/
def denyAll : List Char → Bool := fun _ => false

/-- A verifier that accepts every token. -/
def acceptAll : List Char → Bool := fun _ => true

theorem pySplit_ne_nil (sep : Char) (l : List Char) : pySplit sep l ≠ [] := by
  induction l with
  | nil => simp [pySplit]
  | cons c cs ih =>
      unfold pySplit
      by_cases hc : c = sep
      · simp [hc]
      · simp only [hc, if_false]
        cases h : pySplit sep cs with
        | nil => simp
        | cons g gs => simp

theorem pySplit_not_mem (sep : Char) (l : List Char) (h : sep ∉ l) :
    pySplit sep l = [l] := by
  induction l with
  | nil => rfl
  | cons c cs ih =>
      have hc : ¬ c = sep := fun hcc => h (hcc ▸ List.mem_cons_self c cs)
      have hcs : sep ∉ cs := fun hm => h (List.mem_cons_of_mem c hm)
      unfold pySplit
      simp only [hc, if_false]
      rw [ih hcs]

theorem pySplit_mem_length (sep : Char) (l : List Char) (h : sep ∈ l) :
    2 ≤ (pySplit sep l).length := by
  induction l with
  | nil => cases h
  | cons c cs ih =>
      unfold pySplit
      by_cases hc : c = sep
      · simp only [hc, if_true]
        have := pySplit_ne_nil sep cs
        have hlen : 1 ≤ (pySplit sep cs).length := by
          cases hp : pySplit sep cs with
          | nil => exact absurd hp this
          | cons g gs => simp
        simp only [List.length_cons]
        omega
      · have hm : sep ∈ cs := by
          cases List.mem_cons.mp h with
          | inl he => exact absurd he.symm hc
          | inr hm => exact hm
        have h2 := ih hm
        simp only [hc, if_false]
        cases hp : pySplit sep cs with
        | nil => exact absurd hp (pySplit_ne_nil sep cs)
        | cons g gs =>
            rw [hp] at h2
            simp only [List.length_cons] at h2 ⊢
            omega

/-- Counterexample to claim C5: an Authorization header that is present with
the empty value contains no space separator, yet the gate rejects it with No
token provided (Python truthiness of the empty string), not with Invalid
token format. -/
theorem C5_counterexample :
    (' ' ∉ ([] : List Char)) ∧
    token_required denyAll (some []) = GateResult.rejected "No token provided" ∧
    token_required denyAll (some []) ≠
      GateResult.rejected "Invalid token format" := by
  refine ⟨by decide, rfl, by decide⟩

/-- Claim C5 as amended: the gate produces three distinct messages with the
same 401 outcome — a missing header, or a header present with the empty
value, is rejected with No token provided; a nonempty header value with no
space is rejected with Invalid token format; a header whose extracted token
fails the verifier is rejected with Invalid token; in every rejected case
the wrapped camera operation is not invoked. -/
theorem C5_amended_gate_messages (verify : List Char → Bool) (t tok : List Char) :
    token_required verify none = GateResult.rejected "No token provided" ∧
    token_required verify (some []) = GateResult.rejected "No token provided" ∧
    (t ≠ [] → ' ' ∉ t →
      token_required verify (some t) = GateResult.rejected "Invalid token format") ∧
    (t ≠ [] → (pySplit ' ' t)[1]? = some tok → verify tok = false →
      token_required verify (some t) = GateResult.rejected "Invalid token") ∧
    (∀ m tk, token_required verify (some t) = GateResult.rejected m →
      token_required verify (some t) ≠ GateResult.passed tk) ∧
    ("No token provided" ≠ "Invalid token format" ∧
      "No token provided" ≠ "Invalid token" ∧
      "Invalid token format" ≠ "Invalid token") := by
  refine ⟨rfl, rfl, ?_, ?_, ?_, by decide, by decide, by decide⟩
  · intro hne hsp
    have hs := pySplit_not_mem ' ' t hsp
    simp [token_required, hne, hs]
  · intro hne hg hv
    simp [token_required, hne, hg, hv]
  · intro m tk hr
    rw [hr]
    simp

/-- Witness for the amended C5: a nonempty header with no space is rejected
as Invalid token format, and a well-formed header whose token the verifier
refuses is rejected as Invalid token. -/
theorem C5_amended_gate_messages_witness :
    token_required denyAll (some ['B', 'e', 'a', 'r', 'e', 'r']) =
      GateResult.rejected "Invalid token format" ∧
    token_required denyAll (some ['B', 'e', 'a', 'r', 'e', 'r', ' ', 'x']) =
      GateResult.rejected "Invalid token" :=
  ⟨(C5_amended_gate_messages denyAll ['B', 'e', 'a', 'r', 'e', 'r'] []).2.2.1
      (by decide) (by decide),
    (C5_amended_gate_messages denyAll
        ['B', 'e', 'a', 'r', 'e', 'r', ' ', 'x'] ['x']).2.2.2.1
      (by decide) (by decide) rfl⟩

/-- Claim C10: the gate never inspects the authorization scheme word — for
any header value containing at least one space, the second space-separated
segment is extracted and the request is accepted exactly when the verifier
accepts that segment; the Invalid token format rejection occurs only for
header values containing no space at all. -/
theorem C10_no_scheme_check (verify : List Char → Bool) (t : List Char) :
    (' ' ∈ t → ∃ tok, (pySplit ' ' t)[1]? = some tok ∧
      token_required verify (some t) =
        (if verify tok then GateResult.passed tok
          else GateResult.rejected "Invalid token")) ∧
    (token_required verify (some t) = GateResult.rejected "Invalid token format" →
      ' ' ∉ t) := by
  constructor
  · intro h
    have hne : t ≠ [] := by
      intro he
      rw [he] at h
      cases h
    have hlen := pySplit_mem_length ' ' t h
    cases hg : (pySplit ' ' t)[1]? with
    | none =>
        rw [List.getElem?_eq_none_iff] at hg
        omega
    | some tok =>
        refine ⟨tok, rfl, ?_⟩
        simp [token_required, hne, hg]
  · intro hrej hmem
    have hne : t ≠ [] := by
      intro he
      rw [he] at hmem
      cases hmem
    have hlen := pySplit_mem_length ' ' t hmem
    cases hg : (pySplit ' ' t)[1]? with
    | none =>
        rw [List.getElem?_eq_none_iff] at hg
        omega
    | some tok =>
        simp [token_required, hne, hg] at hrej
        by_cases hv : verify tok = true
        · simp [hv] at hrej
        · simp [hv] at hrej

/-- Witness for C10: a header using the Basic scheme is accepted when the
verifier accepts its second segment. -/
theorem C10_no_scheme_check_witness :
    token_required acceptAll (some ['B', 'a', 's', 'i', 'c', ' ', 'x']) =
      GateResult.passed ['x'] := by
  obtain ⟨tok, hg, he⟩ :=
    (C10_no_scheme_check acceptAll ['B', 'a', 's', 'i', 'c', ' ', 'x']).1 (by decide)
  have h2 : (pySplit ' ' ['B', 'a', 's', 'i', 'c', ' ', 'x'])[1]? = some ['x'] := by
    decide
  rw [h2] at hg
  have ht : tok = ['x'] := (Option.some_inj.mp hg).symm
  rw [ht] at he
  rw [he]
  decide
